import Mathlib

/-!
Verification of the home-value request / messaging workflow of the PFE backend.

The development shallowly embeds the Express route handlers of
`src/HomeValueRoutes.js` (create request, list requests, claim request,
delete request, list messages, post message) and the message-listing
handler of `src/inquiriesRoutes.js` as pure state-transition functions on
an explicit database value.  Each handler is one atomic step: every SQL
statement it issues is a parameterized statement against the relational
store, and the one multi-statement handler (DELETE /:id) wraps its
statements in BEGIN/COMMIT with ROLLBACK on every early return, so its
effect is all-or-nothing.

Conventions:
- `NOW()` timestamps are passed in as an explicit `now : Nat` argument.
- Supabase public URLs are modelled as a fixed prefix plus the file name;
  the `Date.now()` collision-avoidance prefix of the file name is elided
  (it never influences control flow).
- JSON row payloads of successful responses are not modelled beyond the
  resulting database state; only the HTTP status, the response message and
  the state transition matter to the properties below.
-/

/-- The authenticated caller decoded from the JWT (`req.user`): an id and a
role string (`admin`, `expert`, `agent` or `user`). -/
structure Actor where
  id : Nat
  role : String
deriving Repr, DecidableEq

/-- A row of the `home_values` table. -/
structure Request where
  id : Nat
  user_id : Nat
  expert_id : Option Nat
  address : String
  images : List String
  created_at : Nat
deriving Repr, DecidableEq

/-- A row of the `messages` table used by the home-value workflow
(`home_value_id` foreign key). -/
structure Message where
  id : Nat
  home_value_id : Nat
  sender_id : Nat
  message : String
  images : List String
  is_read : Bool
  created_at : Nat
deriving Repr, DecidableEq

/-- The relational store seen by `HomeValueRoutes.js`: the `home_values`
and `messages` tables plus the serial id sequences. -/
structure HVDB where
  home_values : List Request
  messages : List Message
  next_request_id : Nat
  next_message_id : Nat
deriving Repr, DecidableEq

/-- An HTTP response: status code and the `message` field of the JSON
body. -/
structure HttpResponse where
  status : Nat
  message : String
deriving Repr, DecidableEq

/-- One file of a multipart upload.  `uploadFails` records whether the
storage backend rejects this file (the `error` branch of
`supabase.storage.upload`). -/
structure UploadFile where
  originalname : String
  mimetype : String
  uploadFails : Bool
deriving Repr, DecidableEq

/-- `getPublicUrl`: the stable public locator of an uploaded file. -/
def publicUrl (fileName : String) : String :=
  "https://supabase.storage/uploads/" ++ fileName

/-- `uploadToSupabase` (HomeValueRoutes.js lines 52-75): uploads each file
in order; on a backend error it logs and `continue`s, skipping the file,
so the result is the list of public URLs of the files that succeeded. -/
def uploadToSupabase : List UploadFile → List String
  | [] => []
  | f :: rest =>
    if f.uploadFails then uploadToSupabase rest
    else publicUrl f.originalname :: uploadToSupabase rest

/-- POST `/` (create home value request): requires a non-empty address,
uploads the images, and inserts a row with `expert_id = NULL`. -/
def createRequest (db : HVDB) (user : Actor) (address : String)
    (files : List UploadFile) (now : Nat) : HttpResponse × HVDB :=
  if address = "" then
    ({ status := 400, message := "Address is required" }, db)
  else
    let imageUrls := uploadToSupabase files
    let newReq : Request :=
      { id := db.next_request_id, user_id := user.id, expert_id := none,
        address := address, images := imageUrls, created_at := now }
    ({ status := 200, message := "Home value request submitted successfully" },
     { db with home_values := db.home_values ++ [newReq],
               next_request_id := db.next_request_id + 1 })

/-- GET `/user-and-expert`: the rows returned (experts see unclaimed
requests and their own; others see their own).  Read-only. -/
def listRequests (db : HVDB) (user : Actor) : List Request :=
  if user.role = "expert" then
    db.home_values.filter (fun r => decide (r.expert_id = none ∨ r.expert_id = some user.id))
  else
    db.home_values.filter (fun r => decide (r.user_id = user.id))

/-- The row transformation of the conditional UPDATE
`SET expert_id = $1 WHERE id = $2 AND expert_id IS NULL`. -/
def claimUpdate (uid rid : Nat) (r : Request) : Request :=
  if r.id = rid ∧ r.expert_id = none then { r with expert_id := some uid } else r

/-- POST `/:id/validate` (claim request, HomeValueRoutes.js lines 145-172):
403 for non-experts; otherwise a single conditional UPDATE that assigns
the caller only where `expert_id IS NULL`; `rowCount = 0` (no unclaimed
row with that id) yields 400 "Request already assigned or not found". -/
def claimRequest (db : HVDB) (user : Actor) (rid : Nat) : HttpResponse × HVDB :=
  if user.role ≠ "expert" then
    ({ status := 403, message := "Access restricted to experts only" }, db)
  else if db.home_values.any (fun r => decide (r.id = rid ∧ r.expert_id = none)) then
    ({ status := 200, message := "Request assigned to you" },
     { db with home_values := db.home_values.map (claimUpdate user.id rid) })
  else
    ({ status := 400, message := "Request already assigned or not found" }, db)

/-- DELETE `/:id` (HomeValueRoutes.js lines 175-208): inside a BEGIN/COMMIT
transaction, looks the request up (404 and ROLLBACK when absent), checks
that the caller is the owner or the assigned expert (403 and ROLLBACK
otherwise), then deletes the request's messages and the request itself and
commits. -/
def deleteRequest (db : HVDB) (user : Actor) (rid : Nat) : HttpResponse × HVDB :=
  match db.home_values.find? (fun r => decide (r.id = rid)) with
  | none => ({ status := 404, message := "Home value request not found" }, db)
  | some r =>
    if r.user_id ≠ user.id ∧ (user.role ≠ "expert" ∨ r.expert_id ≠ some user.id) then
      ({ status := 403, message := "You do not have permission to delete this request" }, db)
    else
      ({ status := 204, message := "" },
       { db with
         home_values := db.home_values.filter (fun q => decide (q.id ≠ rid)),
         messages := db.messages.filter (fun m => decide (m.home_value_id ≠ rid)) })

/-- GET `/:id/messages` (HomeValueRoutes.js lines 211-245): 404 when the
request is absent; 403 when the caller is neither the owner nor an expert;
403 when the caller is an expert and the request is claimed by someone
else; otherwise returns the thread.  The handler issues no UPDATE: the
database is returned unchanged on every path. -/
def getMessages (db : HVDB) (user : Actor) (rid : Nat) : HttpResponse × HVDB :=
  match db.home_values.find? (fun r => decide (r.id = rid)) with
  | none => ({ status := 404, message := "Home value request not found" }, db)
  | some r =>
    if user.id ≠ r.user_id ∧ user.role ≠ "expert" then
      ({ status := 403, message := "Access denied" }, db)
    else if user.role = "expert" ∧ r.expert_id ≠ none ∧ r.expert_id ≠ some user.id then
      ({ status := 403, message := "Request assigned to another expert" }, db)
    else
      ({ status := 200, message := "" }, db)

/-- POST `/:id/messages` (HomeValueRoutes.js lines 248-290): rejects an
empty body with no files before any database access; then 404 when the
request is absent, the same two authorization checks as the read path,
and finally uploads the images and inserts the message with
`is_read = FALSE`. -/
def postMessage (db : HVDB) (user : Actor) (rid : Nat) (message : String)
    (files : List UploadFile) (now : Nat) : HttpResponse × HVDB :=
  if message = "" ∧ files = [] then
    ({ status := 400, message := "Message or images required" }, db)
  else
    match db.home_values.find? (fun r => decide (r.id = rid)) with
    | none => ({ status := 404, message := "Home value request not found" }, db)
    | some r =>
      if user.id ≠ r.user_id ∧ user.role ≠ "expert" then
        ({ status := 403, message := "Access denied" }, db)
      else if user.role = "expert" ∧ r.expert_id ≠ none ∧ r.expert_id ≠ some user.id then
        ({ status := 403, message := "Request assigned to another expert" }, db)
      else
        let imageUrls := uploadToSupabase files
        let newMsg : Message :=
          { id := db.next_message_id, home_value_id := rid, sender_id := user.id,
            message := message, images := imageUrls, is_read := false, created_at := now }
        ({ status := 201, message := "" },
         { db with messages := db.messages ++ [newMsg],
                   next_message_id := db.next_message_id + 1 })

/-- The operations of the home-value workflow (the handlers of
`HomeValueRoutes.js`), each one atomic step. -/
inductive Op where
  | create (user : Actor) (address : String) (files : List UploadFile) (now : Nat)
  | list (user : Actor)
  | claim (user : Actor) (rid : Nat)
  | remove (user : Actor) (rid : Nat)
  | readMessages (user : Actor) (rid : Nat)
  | sendMessage (user : Actor) (rid : Nat) (message : String) (files : List UploadFile) (now : Nat)
deriving Repr

/-- One workflow operation as a state transition.  GET `/user-and-expert`
only SELECTs (its rows are `listRequests`), so it leaves the state
unchanged. -/
def step (db : HVDB) : Op → HttpResponse × HVDB
  | .create u a f n => createRequest db u a f n
  | .list _ => ({ status := 200, message := "" }, db)
  | .claim u rid => claimRequest db u rid
  | .remove u rid => deleteRequest db u rid
  | .readMessages u rid => getMessages db u rid
  | .sendMessage u rid m f n => postMessage db u rid m f n

/-- Database well-formedness: `id` is the primary key of `home_values`
(no duplicates) and the serial sequence is ahead of every existing row. -/
def HVDB.WF (db : HVDB) : Prop :=
  (db.home_values.map Request.id).Nodup ∧
    ∀ r ∈ db.home_values, r.id < db.next_request_id

/-- A row of the `inquiries` table (inquiriesRoutes.js); only the columns
the message-listing handler touches. -/
structure Inquiry where
  id : Nat
  user_id : Nat
  agent_id : Option Nat
  status : String
deriving Repr, DecidableEq

/-- A row of the `messages` table used by the inquiries workflow
(`inquiry_id` foreign key). -/
structure InqMessage where
  id : Nat
  inquiry_id : Nat
  sender_id : Nat
  message : String
  is_read : Bool
  created_at : Nat
deriving Repr, DecidableEq

/-- The relational store seen by the inquiries message-listing handler. -/
structure InqDB where
  inquiries : List Inquiry
  messages : List InqMessage
deriving Repr, DecidableEq

/-- The row transformation of the UPDATE issued by GET `/:id/messages` in
inquiriesRoutes.js: `SET is_read = true WHERE inquiry_id = $1 AND
sender_id != $2 AND is_read = false`. -/
def markRead (iid uid : Nat) (m : InqMessage) : InqMessage :=
  if m.inquiry_id = iid ∧ m.sender_id ≠ uid ∧ m.is_read = false then
    { m with is_read := true }
  else m

/-- GET `/:id/messages` (inquiriesRoutes.js lines 157-210): 404 when the
inquiry is absent, 403 when the caller is neither the inquiry's user nor
its agent; otherwise returns the thread and then marks every unread
message of the thread from another sender as read. -/
def inqGetMessages (db : InqDB) (uid : Nat) (iid : Nat) : HttpResponse × InqDB :=
  match db.inquiries.find? (fun i => decide (i.id = iid)) with
  | none => ({ status := 404, message := "Inquiry not found" }, db)
  | some i =>
    if i.user_id ≠ uid ∧ i.agent_id ≠ some uid then
      ({ status := 403, message := "Unauthorized to view messages" }, db)
    else
      ({ status := 200, message := "" },
       { db with messages := db.messages.map (markRead iid uid) })

/-! ## Concrete fixtures -/

/-- An empty store. -/
def dbEmpty : HVDB := { home_values := [], messages := [], next_request_id := 1, next_message_id := 1 }

/-- An admin caller. -/
def adminA : Actor := { id := 1, role := "admin" }

/-- An ordinary user (owner of the fixture requests). -/
def userU : Actor := { id := 10, role := "user" }

/-- First expert. -/
def expertE1 : Actor := { id := 20, role := "expert" }

/-- Second expert. -/
def expertE2 : Actor := { id := 21, role := "expert" }

/-- An unclaimed request owned by `userU`. -/
def reqUnclaimed : Request :=
  { id := 1, user_id := 10, expert_id := none, address := "12 Elm St", images := [], created_at := 0 }

/-- A store holding only `reqUnclaimed`. -/
def dbUnclaimed : HVDB :=
  { home_values := [reqUnclaimed], messages := [], next_request_id := 2, next_message_id := 1 }

/-- A request owned by `userU` and already claimed by `expertE1`. -/
def reqClaimed : Request :=
  { id := 5, user_id := 10, expert_id := some 20, address := "34 Oak Ave", images := [], created_at := 0 }

/-- A store holding only `reqClaimed`. -/
def dbClaimed : HVDB :=
  { home_values := [reqClaimed], messages := [], next_request_id := 6, next_message_id := 1 }

/-- An unread message from the owner in the thread of `reqClaimed`. -/
def msgUnread : Message :=
  { id := 1, home_value_id := 5, sender_id := 10, message := "When can you visit?",
    images := [], is_read := false, created_at := 3 }

/-- A store where `reqClaimed` has one unread message from its owner. -/
def dbThread : HVDB :=
  { home_values := [reqClaimed], messages := [msgUnread], next_request_id := 6, next_message_id := 2 }

/-- A file the storage backend accepts. -/
def fileOk : UploadFile := { originalname := "a.png", mimetype := "image/png", uploadFails := false }

/-- A file the storage backend rejects. -/
def fileBad : UploadFile := { originalname := "b.png", mimetype := "image/png", uploadFails := true }

/-- An inquiry between user 10 and agent 20. -/
def inqFix : Inquiry := { id := 1, user_id := 10, agent_id := some 20, status := "pending" }

/-- An unread inquiry message from the user. -/
def imsgFromUser : InqMessage :=
  { id := 1, inquiry_id := 1, sender_id := 10, message := "hi", is_read := false, created_at := 1 }

/-- An unread inquiry message from the agent. -/
def imsgFromAgent : InqMessage :=
  { id := 2, inquiry_id := 1, sender_id := 20, message := "yo", is_read := false, created_at := 2 }

/-- An inquiries store with one inquiry and two unread messages. -/
def idbFix : InqDB := { inquiries := [inqFix], messages := [imsgFromUser, imsgFromAgent] }

theorem dbUnclaimed_WF : dbUnclaimed.WF := ⟨by decide, by decide⟩

theorem dbClaimed_WF : dbClaimed.WF := ⟨by decide, by decide⟩

/-! ## Helper lemmas -/

/-- In a store whose request ids are unique, the lookup
`SELECT ... WHERE id = $1` finds exactly the member row with that id. -/
theorem find_request_eq {l : List Request} (hnd : (l.map Request.id).Nodup)
    {r : Request} (hr : r ∈ l) {rid : Nat} (hid : r.id = rid) :
    l.find? (fun q => decide (q.id = rid)) = some r := by
  subst hid
  induction l with
  | nil => cases hr
  | cons a t ih =>
    rw [List.map_cons, List.nodup_cons] at hnd
    rcases List.mem_cons.mp hr with h | h
    · subst h
      simp [List.find?_cons]
    · have hne : ¬ (a.id = r.id) :=
        fun he => hnd.1 (he ▸ List.mem_map_of_mem Request.id h)
      simp only [List.find?_cons, decide_eq_false hne]
      exact ih hnd.2 h

/-- The home-value message-listing handler never writes: the store is
returned unchanged on every path. -/
theorem getMessages_state (db : HVDB) (u : Actor) (rid : Nat) :
    (getMessages db u rid).2 = db := by
  unfold getMessages
  split
  · rfl
  · split
    · rfl
    · split <;> rfl

/-- Posting a message never touches the `home_values` table. -/
theorem postMessage_home_values (db : HVDB) (u : Actor) (rid : Nat) (m : String)
    (files : List UploadFile) (now : Nat) :
    (postMessage db u rid m files now).2.home_values = db.home_values := by
  unfold postMessage
  split
  · rfl
  · split
    · rfl
    · split
      · rfl
      · split <;> rfl

/-- The conditional-UPDATE row transformation preserves the row id. -/
theorem claimUpdate_id (uid rid : Nat) (r : Request) :
    (claimUpdate uid rid r).id = r.id := by
  unfold claimUpdate
  split <;> rfl

/-- The conditional UPDATE leaves an already-claimed row untouched. -/
theorem claimUpdate_claimed {e : Nat} (uid rid : Nat) (r : Request)
    (h : r.expert_id = some e) : claimUpdate uid rid r = r := by
  unfold claimUpdate
  split
  · rename_i hc
    rw [hc.2] at h
    exact Option.noConfusion h
  · rfl

/-! ## Claims -/

/-- Claim C4: for every actor whose role is not "expert", the claim
operation fails with 403 Forbidden and the store is unchanged, regardless
of whether the request exists or is already claimed. -/
theorem claim_requires_expert_role (db : HVDB) (u : Actor) (rid : Nat)
    (h : u.role ≠ "expert") :
    claimRequest db u rid =
      ({ status := 403, message := "Access restricted to experts only" }, db) := by
  unfold claimRequest
  rw [if_pos h]

theorem claim_requires_expert_role_witness :
    claimRequest dbClaimed adminA 5 =
      ({ status := 403, message := "Access restricted to experts only" }, dbClaimed) :=
  claim_requires_expert_role dbClaimed adminA 5 (by decide)

/-- Claim C5: posting a message with an empty body and no images always
fails with 400 ValidationError, for every caller and every target request,
and no message is created (the store is unchanged). -/
theorem empty_message_always_rejected (db : HVDB) (u : Actor) (rid : Nat) (now : Nat) :
    postMessage db u rid "" [] now =
      ({ status := 400, message := "Message or images required" }, db) := by
  unfold postMessage
  rw [if_pos ⟨rfl, rfl⟩]

/-- Claim C10: the empty-body-and-no-images validation runs before the
existence and authorization checks: even for an id matching no request,
an empty post yields 400, never 404 or 403, and the store is unchanged. -/
theorem empty_message_checked_first (db : HVDB) (u : Actor) (rid : Nat) (now : Nat)
    (_hmissing : ∀ r ∈ db.home_values, r.id ≠ rid) :
    (postMessage db u rid "" [] now).1.status = 400 ∧
    (postMessage db u rid "" [] now).1.status ≠ 404 ∧
    (postMessage db u rid "" [] now).1.status ≠ 403 ∧
    (postMessage db u rid "" [] now).2 = db := by
  have h : postMessage db u rid "" [] now =
      ({ status := 400, message := "Message or images required" }, db) := by
    unfold postMessage
    rw [if_pos ⟨rfl, rfl⟩]
  rw [h]
  refine ⟨rfl, ?_, ?_, rfl⟩ <;> simp

theorem empty_message_checked_first_witness :
    (postMessage dbEmpty adminA 9 "" [] 0).1.status = 400 ∧
    (postMessage dbEmpty adminA 9 "" [] 0).1.status ≠ 404 ∧
    (postMessage dbEmpty adminA 9 "" [] 0).1.status ≠ 403 ∧
    (postMessage dbEmpty adminA 9 "" [] 0).2 = dbEmpty :=
  empty_message_checked_first dbEmpty adminA 9 0 (by decide)

/-- Claim C2 counterexample: claiming a request that does not exist
returns 400, not 404, and the response is byte-for-byte the one returned
when the request is already claimed: the two failure modes are not
distinguishable by the caller. -/
theorem claim_missing_vs_claimed_indistinguishable :
    (claimRequest dbEmpty expertE1 5).1.status = 400 ∧
    (claimRequest dbEmpty expertE1 5).1.status ≠ 404 ∧
    (claimRequest dbEmpty expertE1 5).1 = (claimRequest dbClaimed expertE1 5).1 := by
  refine ⟨rfl, by decide, rfl⟩

/-- When no unclaimed row with the requested id exists (whether the id is
absent altogether or present but already claimed), an expert's claim
returns the single 400 failure response and leaves the store unchanged. -/
theorem claimRequest_no_unclaimed (db : HVDB) (u : Actor) (rid : Nat)
    (hrole : u.role = "expert")
    (hfail : ∀ r ∈ db.home_values, ¬(r.id = rid ∧ r.expert_id = none)) :
    claimRequest db u rid =
      ({ status := 400, message := "Request already assigned or not found" }, db) := by
  have hany : db.home_values.any (fun r => decide (r.id = rid ∧ r.expert_id = none)) = false := by
    simp only [List.any_eq_false, decide_eq_true_eq]
    exact hfail
  unfold claimRequest
  rw [if_neg (fun h => h hrole), hany]
  rfl

/-- Claim C2 amended: for an expert caller, both failure modes — request
absent, or present but already claimed (by anyone, including the caller) —
produce the same 400 response "Request already assigned or not found";
they are not distinguishable, and the store is unchanged. -/
theorem claim_failure_uniform (db : HVDB) (u : Actor) (rid : Nat)
    (hrole : u.role = "expert")
    (hfail : ∀ r ∈ db.home_values, ¬(r.id = rid ∧ r.expert_id = none)) :
    claimRequest db u rid =
      ({ status := 400, message := "Request already assigned or not found" }, db) :=
  claimRequest_no_unclaimed db u rid hrole hfail

theorem claim_failure_uniform_witness :
    claimRequest dbClaimed expertE1 5 =
      ({ status := 400, message := "Request already assigned or not found" }, dbClaimed) :=
  claim_failure_uniform dbClaimed expertE1 5 rfl (by decide)

/-- On a successful claim (status 200), the `home_values` table is exactly
the conditional-UPDATE image of the old table. -/
theorem claimRequest_success_state (db : HVDB) (u : Actor) (rid : Nat)
    (h : (claimRequest db u rid).1.status = 200) :
    (claimRequest db u rid).2.home_values = db.home_values.map (claimUpdate u.id rid) := by
  unfold claimRequest at h ⊢
  split at h
  · exact absurd h (by simp)
  · split at h
    · rename_i h1 h2
      rw [if_neg h1, if_pos h2]
    · exact absurd h (by simp)

/-- On a failed claim (any non-200 outcome), the store is unchanged. -/
theorem claimRequest_fail_state (db : HVDB) (u : Actor) (rid : Nat)
    (h : (claimRequest db u rid).1.status ≠ 200) :
    (claimRequest db u rid).2 = db := by
  unfold claimRequest at h ⊢
  split at h
  · rename_i h1
    rw [if_pos h1]
  · split at h
    · exact absurd rfl h
    · rename_i h1 h2
      rw [if_neg h1, if_neg h2]

/-- A claim succeeds exactly when the caller is an expert and an unclaimed
row with the requested id exists. -/
theorem claimRequest_success_iff (db : HVDB) (u : Actor) (rid : Nat) :
    (claimRequest db u rid).1.status = 200 ↔
      (u.role = "expert" ∧ ∃ r ∈ db.home_values, r.id = rid ∧ r.expert_id = none) := by
  unfold claimRequest
  split
  · rename_i h1
    simp only [show (403 : Nat) ≠ 200 by decide]
    constructor
    · intro hc
      exact absurd hc (by simp)
    · intro hc
      exact absurd hc.1 h1
  · rename_i h1
    have hrole : u.role = "expert" := not_not.mp h1
    split
    · rename_i h2
      simp only [List.any_eq_true, decide_eq_true_eq] at h2
      exact ⟨fun _ => ⟨hrole, h2⟩, fun _ => rfl⟩
    · rename_i h2
      simp only [List.any_eq_true, decide_eq_true_eq] at h2
      constructor
      · intro hc
        exact absurd hc (by simp)
      · intro hc
        exact absurd hc.2 h2

/-- Claim C1: the claim operation assigns `expert_id` to the caller only
when the request exists with `expert_id` currently null, as one
conditional write (on any failure the store is untouched, and on success
the row with the requested id carries the caller's id); and no operation
of the workflow ever moves an already-set `expert_id` to a different
value or back to null. -/
theorem claim_conditional_and_terminal (db : HVDB) (hWF : db.WF) :
    (∀ u rid, (claimRequest db u rid).1.status = 200 →
        ∃ r ∈ db.home_values, r.id = rid ∧ r.expert_id = none) ∧
    (∀ u rid, (claimRequest db u rid).1.status ≠ 200 → (claimRequest db u rid).2 = db) ∧
    (∀ u rid, (claimRequest db u rid).1.status = 200 →
        ∃ r' ∈ (claimRequest db u rid).2.home_values, r'.id = rid ∧ r'.expert_id = some u.id) ∧
    (∀ (op : Op) (e : Nat) (r r' : Request), r ∈ db.home_values → r.expert_id = some e →
        r' ∈ (step db op).2.home_values → r'.id = r.id → r'.expert_id = some e) := by
  have hinj := List.inj_on_of_nodup_map hWF.1
  refine ⟨?_, ?_, ?_, ?_⟩
  · intro u rid h
    exact ((claimRequest_success_iff db u rid).mp h).2
  · intro u rid h
    exact claimRequest_fail_state db u rid h
  · intro u rid h
    obtain ⟨hrole, r, hr, hid, hnone⟩ := (claimRequest_success_iff db u rid).mp h
    rw [claimRequest_success_state db u rid h]
    refine ⟨claimUpdate u.id rid r, List.mem_map_of_mem _ hr, ?_, ?_⟩
    · rw [claimUpdate_id, hid]
    · unfold claimUpdate
      rw [if_pos ⟨hid, hnone⟩]
  · intro op e r r' hr he hr' hid
    cases op with
    | create u a f n =>
      simp only [step] at hr'
      unfold createRequest at hr'
      by_cases ha : a = ""
      · rw [if_pos ha] at hr'
        rw [hinj hr' hr hid]
        exact he
      · rw [if_neg ha] at hr'
        simp only [List.mem_append, List.mem_singleton] at hr'
        rcases hr' with h | h
        · rw [hinj h hr hid]
          exact he
        · rw [h] at hid
          have hlt := hWF.2 r hr
          rw [← hid] at hlt
          exact absurd hlt (Nat.lt_irrefl _)
    | list u =>
      simp only [step] at hr'
      rw [hinj hr' hr hid]
      exact he
    | claim u rid =>
      simp only [step] at hr'
      by_cases h200 : (claimRequest db u rid).1.status = 200
      · rw [claimRequest_success_state db u rid h200] at hr'
        obtain ⟨r0, hr0, hup⟩ := List.mem_map.mp hr'
        have hid0 : r0.id = r.id := by
          rw [← hid, ← hup, claimUpdate_id]
        rw [hinj hr0 hr hid0] at hup
        rw [← hup, claimUpdate_claimed _ _ _ he]
        exact he
      · rw [claimRequest_fail_state db u rid h200] at hr'
        rw [hinj hr' hr hid]
        exact he
    | remove u rid =>
      simp only [step] at hr'
      unfold deleteRequest at hr'
      split at hr'
      · rw [hinj hr' hr hid]
        exact he
      · split at hr'
        · rw [hinj hr' hr hid]
          exact he
        · have hmem : r' ∈ db.home_values := List.mem_of_mem_filter hr'
          rw [hinj hmem hr hid]
          exact he
    | readMessages u rid =>
      simp only [step] at hr'
      rw [getMessages_state] at hr'
      rw [hinj hr' hr hid]
      exact he
    | sendMessage u rid m f n =>
      simp only [step] at hr'
      rw [postMessage_home_values] at hr'
      rw [hinj hr' hr hid]
      exact he

theorem claim_conditional_and_terminal_witness :
    (claimRequest dbUnclaimed adminA 1).2 = dbUnclaimed :=
  (claim_conditional_and_terminal dbUnclaimed dbUnclaimed_WF).2.1 adminA 1 (by decide)

/-- Claim C9: for a request with `expert_id` null, two claim attempts by
experts in either order (any interleaving of the two atomic conditional
writes is one of the two orders) resolve so that the first succeeds — the
stored row then carries the winner's id — and the second fails with the
400 already-assigned response, leaving the store unchanged; never both
succeed. -/
theorem concurrent_claims_single_winner (db : HVDB) (hWF : db.WF) (e1 e2 : Actor)
    (h1 : e1.role = "expert") (h2 : e2.role = "expert") (r : Request)
    (hr : r ∈ db.home_values) (hnone : r.expert_id = none) :
    (claimRequest db e1 r.id).1.status = 200 ∧
    (claimRequest (claimRequest db e1 r.id).2 e2 r.id).1 =
      { status := 400, message := "Request already assigned or not found" } ∧
    (claimRequest (claimRequest db e1 r.id).2 e2 r.id).2 = (claimRequest db e1 r.id).2 ∧
    claimUpdate e1.id r.id r ∈ (claimRequest db e1 r.id).2.home_values ∧
    (claimUpdate e1.id r.id r).expert_id = some e1.id := by
  have hinj := List.inj_on_of_nodup_map hWF.1
  have hwin : (claimUpdate e1.id r.id r).expert_id = some e1.id := by
    unfold claimUpdate
    rw [if_pos ⟨rfl, hnone⟩]
  have hst : (claimRequest db e1 r.id).1.status = 200 :=
    (claimRequest_success_iff db e1 r.id).mpr ⟨h1, r, hr, rfl, hnone⟩
  have hhv := claimRequest_success_state db e1 r.id hst
  have hfail2 : ∀ q ∈ (claimRequest db e1 r.id).2.home_values,
      ¬(q.id = r.id ∧ q.expert_id = none) := by
    rw [hhv]
    intro q hq hc
    obtain ⟨q0, hq0, hqeq⟩ := List.mem_map.mp hq
    have hq0id : q0.id = r.id := by
      rw [← hc.1, ← hqeq, claimUpdate_id]
    rw [hinj hq0 hr hq0id] at hqeq
    rw [← hqeq, hwin] at hc
    exact Option.noConfusion hc.2
  have h400 := claimRequest_no_unclaimed (claimRequest db e1 r.id).2 e2 r.id h2 hfail2
  refine ⟨hst, ?_, ?_, ?_, hwin⟩
  · rw [h400]
  · rw [h400]
  · rw [hhv]
    exact List.mem_map_of_mem _ hr

theorem concurrent_claims_single_winner_witness :
    (claimRequest dbUnclaimed expertE1 reqUnclaimed.id).1.status = 200 ∧
    (claimRequest (claimRequest dbUnclaimed expertE1 reqUnclaimed.id).2 expertE2 reqUnclaimed.id).1 =
      { status := 400, message := "Request already assigned or not found" } ∧
    (claimRequest (claimRequest dbUnclaimed expertE1 reqUnclaimed.id).2 expertE2 reqUnclaimed.id).2 =
      (claimRequest dbUnclaimed expertE1 reqUnclaimed.id).2 ∧
    claimUpdate expertE1.id reqUnclaimed.id reqUnclaimed ∈
      (claimRequest dbUnclaimed expertE1 reqUnclaimed.id).2.home_values ∧
    (claimUpdate expertE1.id reqUnclaimed.id reqUnclaimed).expert_id = some expertE1.id :=
  concurrent_claims_single_winner dbUnclaimed dbUnclaimed_WF expertE1 expertE2 rfl rfl
    reqUnclaimed (by decide) rfl

/-- Claim C7: deletion is transactional — when it reports 204 the request
and every message with its id are removed together, on any failure the
store is completely unchanged, and deleting an id that matches no request
yields 404 and deletes nothing. -/
theorem delete_cascades_transactionally (db : HVDB) (u : Actor) (rid : Nat) :
    ((deleteRequest db u rid).1.status = 204 →
        (deleteRequest db u rid).2.home_values =
          db.home_values.filter (fun q => decide (q.id ≠ rid)) ∧
        (deleteRequest db u rid).2.messages =
          db.messages.filter (fun m => decide (m.home_value_id ≠ rid))) ∧
    ((deleteRequest db u rid).1.status ≠ 204 → (deleteRequest db u rid).2 = db) ∧
    ((∀ r ∈ db.home_values, r.id ≠ rid) →
        deleteRequest db u rid = ({ status := 404, message := "Home value request not found" }, db)) := by
  unfold deleteRequest
  rcases hf : db.home_values.find? (fun r => decide (r.id = rid)) with _ | r
  · rw [hf]
    exact ⟨fun h => absurd h (by simp), fun _ => rfl, fun _ => rfl⟩
  · simp only [hf]
    have hcontra : ¬ (∀ q ∈ db.home_values, q.id ≠ rid) := by
      intro hmiss
      have hrmem := List.mem_of_find?_eq_some hf
      have h1 := List.find?_some hf
      exact hmiss r hrmem (of_decide_eq_true h1)
    by_cases hperm : r.user_id ≠ u.id ∧ (u.role ≠ "expert" ∨ r.expert_id ≠ some u.id)
    · rw [if_pos hperm]
      refine ⟨?_, fun _ => rfl, fun hmiss => absurd hmiss hcontra⟩
      intro h
      exact absurd h (by simp)
    · rw [if_neg hperm]
      exact ⟨fun _ => ⟨rfl, rfl⟩, fun h => absurd rfl h, fun hmiss => absurd hmiss hcontra⟩

theorem delete_cascades_transactionally_witness :
    deleteRequest dbEmpty userU 1 =
      ({ status := 404, message := "Home value request not found" }, dbEmpty) :=
  (delete_cascades_transactionally dbEmpty userU 1).2.2 (by decide)

/-- Claim C3 counterexample: in the code, an expert who has not claimed an
unclaimed request is not denied: `expertE1` (not the owner, no claim) posts
to the unclaimed request and receives 201, and the message is stored. -/
theorem unclaimed_request_accepts_expert_message :
    (postMessage dbUnclaimed expertE1 1 "hello" [] 7).1.status = 201 ∧
    (postMessage dbUnclaimed expertE1 1 "hello" [] 7).2.messages =
      [{ id := 1, home_value_id := 1, sender_id := 20, message := "hello",
         images := [], is_read := false, created_at := 7 }] := by
  exact ⟨rfl, rfl⟩

/-- Claim C3 amended: for an unclaimed request, posting a non-empty
message succeeds (201, message appended) for the owner and also for any
actor whose role is "expert" — experts need not claim first; a caller who
is neither the owner nor an expert is denied with 403 "Access denied" and
the store is unchanged. -/
theorem unclaimed_message_policy (db : HVDB) (hWF : db.WF) (r : Request)
    (hr : r ∈ db.home_values) (hnone : r.expert_id = none) (u : Actor)
    (msg : String) (hmsg : msg ≠ "") (files : List UploadFile) (now : Nat) :
    ((u.role = "expert" ∨ u.id = r.user_id) →
        (postMessage db u r.id msg files now).1.status = 201 ∧
        (postMessage db u r.id msg files now).2.messages =
          db.messages ++
            [{ id := db.next_message_id, home_value_id := r.id, sender_id := u.id,
               message := msg, images := uploadToSupabase files,
               is_read := false, created_at := now }]) ∧
    (u.role ≠ "expert" → u.id ≠ r.user_id →
        postMessage db u r.id msg files now = ({ status := 403, message := "Access denied" }, db)) := by
  have hfind := find_request_eq hWF.1 hr rfl
  unfold postMessage
  rw [if_neg (fun hc => hmsg hc.1)]
  simp only [hfind]
  constructor
  · intro hok
    rw [if_neg (fun hc => hok.elim (fun h => hc.2 h) (fun h => hc.1 h))]
    rw [if_neg (fun hc => hc.2.1 hnone)]
    exact ⟨rfl, rfl⟩
  · intro hrole hid
    rw [if_pos ⟨hid, hrole⟩]

theorem unclaimed_message_policy_witness :
    (postMessage dbUnclaimed expertE1 reqUnclaimed.id "hi" [] 3).1.status = 201 ∧
    (postMessage dbUnclaimed expertE1 reqUnclaimed.id "hi" [] 3).2.messages =
      dbUnclaimed.messages ++
        [{ id := dbUnclaimed.next_message_id, home_value_id := reqUnclaimed.id,
           sender_id := expertE1.id, message := "hi", images := uploadToSupabase [],
           is_read := false, created_at := 3 }] :=
  (unclaimed_message_policy dbUnclaimed dbUnclaimed_WF reqUnclaimed (by decide) rfl
    expertE1 "hi" (by decide) [] 3).1 (Or.inl rfl)

/-- Claim C6 counterexample: in the home-value workflow, the assigned
expert successfully lists the thread (200) yet the stored message from the
owner (`sender_id` 10 ≠ caller 20) still has `is_read = false` and the
store is completely unchanged: the listing performs no mark-on-view
write. -/
theorem home_value_listing_marks_nothing_read :
    (getMessages dbThread expertE1 5).1.status = 200 ∧
    (getMessages dbThread expertE1 5).2 = dbThread ∧
    msgUnread ∈ (getMessages dbThread expertE1 5).2.messages ∧
    msgUnread.sender_id ≠ expertE1.id ∧
    msgUnread.is_read = false := by
  refine ⟨rfl, rfl, by decide, by decide, rfl⟩

/-- Claim C6 amended: the mark-on-view side effect exists only in the
inquiries workflow: a successful inquiry-thread listing by actor A maps
every stored message through the mark-read transformation, which sets
`is_read = true` on exactly the messages of that thread whose sender is
not A (leaving every other field, every message of A, and every other
thread untouched); the home-value-thread listing, by contrast, never
modifies the store at all. -/
theorem listing_mark_read_policy (idb : InqDB) (uid iid : Nat) (i : Inquiry)
    (hfind : idb.inquiries.find? (fun q => decide (q.id = iid)) = some i)
    (hauth : i.user_id = uid ∨ i.agent_id = some uid) :
    (inqGetMessages idb uid iid).1.status = 200 ∧
    (inqGetMessages idb uid iid).2.messages = idb.messages.map (markRead iid uid) ∧
    (∀ m : InqMessage, m.inquiry_id = iid → m.sender_id ≠ uid →
        markRead iid uid m = { m with is_read := true }) ∧
    (∀ m : InqMessage, m.sender_id = uid ∨ m.inquiry_id ≠ iid → markRead iid uid m = m) ∧
    (∀ (db : HVDB) (u : Actor) (rid : Nat), (getMessages db u rid).2 = db) := by
  have hstep : inqGetMessages idb uid iid =
      ({ status := 200, message := "" },
       { idb with messages := idb.messages.map (markRead iid uid) }) := by
    unfold inqGetMessages
    rw [hfind]
    simp only
    rw [if_neg (fun hc => hauth.elim (fun h => hc.1 h) (fun h => hc.2 h))]
  refine ⟨by rw [hstep], by rw [hstep], ?_, ?_, fun db u rid => getMessages_state db u rid⟩
  · intro m h1 h2
    unfold markRead
    by_cases hb : m.is_read = false
    · rw [if_pos ⟨h1, h2, hb⟩]
    · rw [if_neg (fun hc => hb hc.2.2)]
      have hb' : m.is_read = true := by
        cases hm : m.is_read
        · exact absurd hm hb
        · rfl
      cases m
      simp only [InqMessage.mk.injEq] at *
      simp [hb']
  · intro m h
    unfold markRead
    rw [if_neg (fun hc => h.elim (fun h1 => hc.2.1 h1) (fun h1 => h1 hc.1))]

theorem listing_mark_read_policy_witness :
    (inqGetMessages idbFix 20 1).2.messages =
      [{ imsgFromUser with is_read := true }, imsgFromAgent] :=
  ((listing_mark_read_policy idbFix 20 1 inqFix (by decide) (Or.inr rfl)).2.1).trans (by decide)

/-- Claim C8 counterexample: creating a request with two images where the
storage backend rejects the second reports full success (200 with the
success message) and stores a partially-uploaded record holding only the
first image's URL: the upload error does not propagate and partial
success is reported as success. -/
theorem upload_failure_reported_as_success :
    (createRequest dbEmpty userU "12 Elm St" [fileOk, fileBad] 0).1.status = 200 ∧
    (createRequest dbEmpty userU "12 Elm St" [fileOk, fileBad] 0).1.message =
      "Home value request submitted successfully" ∧
    (createRequest dbEmpty userU "12 Elm St" [fileOk, fileBad] 0).2.home_values =
      [{ id := 1, user_id := 10, expert_id := none, address := "12 Elm St",
         images := [publicUrl "a.png"], created_at := 0 }] := by
  refine ⟨rfl, rfl, rfl⟩

/-- Claim C8 amended: storage-backend upload errors are swallowed, not
propagated: `uploadToSupabase` returns exactly the URLs of the files the
backend accepted, skipping the failures, and request creation with a
non-empty address always reports 200 success, storing the partial image
list — no storage error ever reaches the caller. -/
theorem upload_failures_skipped (files : List UploadFile) :
    uploadToSupabase files =
      (files.filter (fun f => !f.uploadFails)).map (fun f => publicUrl f.originalname) ∧
    ∀ (db : HVDB) (u : Actor) (address : String), address ≠ "" → ∀ now : Nat,
      (createRequest db u address files now).1.status = 200 ∧
      (createRequest db u address files now).2.home_values =
        db.home_values ++
          [{ id := db.next_request_id, user_id := u.id, expert_id := none, address := address,
             images := uploadToSupabase files, created_at := now }] := by
  constructor
  · induction files with
    | nil => rfl
    | cons f rest ih =>
      unfold uploadToSupabase
      by_cases hb : f.uploadFails
      · rw [if_pos hb]
        simp [List.filter_cons, hb, ih]
      · rw [if_neg hb]
        simp only [Bool.not_eq_true] at hb
        simp [List.filter_cons, hb, ih]
  · intro db u address haddr now
    unfold createRequest
    rw [if_neg haddr]
    exact ⟨rfl, rfl⟩

theorem upload_failures_skipped_witness :
    (createRequest dbEmpty userU "12 Elm St" [fileBad] 0).1.status = 200 :=
  ((upload_failures_skipped [fileBad]).2 dbEmpty userU "12 Elm St" (by decide) 0).1
